import Mathlib

/-!
Verification of the VeSync integration layer
(`custom_components/vesync/humidifier.py` and
`custom_components/vesync/binary_sensor.py`): a shallow embedding of the
mode-translation tables, the humidifier command surface, and the
binary-sensor discovery logic, with theorems checking the specification's
claims against it.

Python dictionaries are modelled as association lists with first-match
lookup (Python dict keys are unique) and last-write-wins insertion for
dict comprehensions.
-/

/-- Python dict assignment `d[k] = v`: if the key exists its value is
updated in place (keeping the key's position); otherwise the pair is
appended, since Python dicts preserve insertion order. -/
def pyInsert {β : Type} (d : List (String × β)) (k : String) (v : β) : List (String × β) :=
  if (d.lookup k).isSome then
    d.map (fun p => if p.1 == k then (k, v) else p)
  else
    d ++ [(k, v)]

/-- A Python dict built from a sequence of key-value assignments (as a
dict comprehension or a filling loop does): assignments performed in
order, last write wins. -/
def pyDictOfPairs {β : Type} (ps : List (String × β)) : List (String × β) :=
  ps.foldl (fun d p => pyInsert d p.1 p.2) []

/-- Modelled from the spec: the vendor mode identifiers `VS_MODE_AUTO`,
`VS_MODE_HUMIDITY`, `VS_MODE_MANUAL`, `VS_MODE_SLEEP` live in `const.py`,
which is not under `src/`; they are the vendor-side string representations
of the auto / humidity / manual / sleep operating modes. -/
def VS_MODE_AUTO : String := "auto"

/-- Modelled from the spec: vendor-side identifier of the humidity mode
(`const.py`, not under `src/`). -/
def VS_MODE_HUMIDITY : String := "humidity"

/-- Modelled from the spec: vendor-side identifier of the manual mode
(`const.py`, not under `src/`). -/
def VS_MODE_MANUAL : String := "manual"

/-- Modelled from the spec: vendor-side identifier of the sleep mode
(`const.py`, not under `src/`). -/
def VS_MODE_SLEEP : String := "sleep"

/-- Modelled from the spec: the host-side mode identifier `MODE_AUTO` from
the host platform's humidifier component (external dependency). -/
def MODE_AUTO : String := "auto"

/-- Modelled from the spec: host-side identifier of the normal mode. -/
def MODE_NORMAL : String := "normal"

/-- Modelled from the spec: host-side identifier of the sleep mode. -/
def MODE_SLEEP : String := "sleep"

/-- `humidifier.py` line 37. -/
def MAX_HUMIDITY : Int := 80

/-- `humidifier.py` line 38. -/
def MIN_HUMIDITY : Int := 30

/-- `humidifier.py` lines 41-46: the vendor-to-host mode table, as the
ordered list of entries of the Python dict literal. -/
def VS_TO_HA_MODE_MAP : List (String × String) :=
  [(VS_MODE_AUTO, MODE_AUTO),
   (VS_MODE_HUMIDITY, MODE_AUTO),
   (VS_MODE_MANUAL, MODE_NORMAL),
   (VS_MODE_SLEEP, MODE_SLEEP)]

/-- `humidifier.py` line 48:
`HA_TO_VS_MODE_MAP = \x7bv: k for k, v in VS_TO_HA_MODE_MAP.items()\x7d`. -/
def HA_TO_VS_MODE_MAP : List (String × String) :=
  pyDictOfPairs (VS_TO_HA_MODE_MAP.map (fun p => (p.2, p.1)))

/-- Result of a mode-table lookup: the translated mode (if any) and
whether a warning was logged. -/
structure ModeLookup where
  result : Option String
  warned : Bool
deriving Repr, DecidableEq

/-- `humidifier.py` lines 85-89: look up a vendor mode in
`VS_TO_HA_MODE_MAP`; on a miss log a warning and return `None`. -/
def get_ha_mode (vs_mode : String) : ModeLookup :=
  let ha_mode := VS_TO_HA_MODE_MAP.lookup vs_mode
  { result := ha_mode, warned := ha_mode.isNone }

/-- `humidifier.py` lines 92-96: look up a host mode in
`HA_TO_VS_MODE_MAP`; on a miss log a warning and return `None`. -/
def get_vs_mode (ha_mode : String) : ModeLookup :=
  let vs_mode := HA_TO_VS_MODE_MAP.lookup ha_mode
  { result := vs_mode, warned := vs_mode.isNone }

example : HA_TO_VS_MODE_MAP =
    [(MODE_AUTO, VS_MODE_HUMIDITY), (MODE_NORMAL, VS_MODE_MANUAL),
     (MODE_SLEEP, VS_MODE_SLEEP)] := by decide

example : (get_ha_mode VS_MODE_AUTO).result = some MODE_AUTO := by decide
example : (get_vs_mode MODE_AUTO).result = some VS_MODE_HUMIDITY := by decide

/-- The vendor device object underlying a `VeSyncHumidifierHA` adapter, as
the adapter reads and commands it: the `mist_modes` attribute (which may be
null), the device `uuid`, plus the success/failure behaviour of each vendor
command method the adapter invokes (`set_humidity`, `set_humidity_mode`,
`turn_on`, `turn_off`, each returning a success indicator). -/
structure VendorHumidifier where
  mist_modes : Option (List String)
  uuid : String
  set_humidity_ok : Int → Bool
  set_humidity_mode_ok : Option String → Bool
  turn_on_ok : Bool
  turn_off_ok : Bool

/-- Observable outcome of an adapter command: whether it raised a
`ValueError`, whether the vendor command method was invoked, and whether
`schedule_update_ha_state` (a state refresh) was triggered. -/
structure CmdResult where
  raised : Bool
  vendorCalled : Bool
  refreshed : Bool
deriving Repr, DecidableEq

/-- Python `x in range(a, b)` for integers. -/
def pyRangeContains (a b x : Int) : Bool := a ≤ x && x < b

/-- `humidifier.py` lines 119-134 (`available_modes`): if `mist_modes` is
null return `[]`; otherwise loop over the vendor modes, translating each
through `get_ha_mode` and appending the translation when it is known. -/
def VeSyncHumidifierHA.available_modes (dev : VendorHumidifier) : List String :=
  match dev.mist_modes with
  | none => []
  | some mist_modes =>
    mist_modes.foldl
      (fun modes vs_mode =>
        match (get_ha_mode vs_mode).result with
        | none => modes
        | some ha_mode => modes ++ [ha_mode])
      []

/-- `humidifier.py` lines 167-179 (`extra_state_attributes`): build the
state-attribute dict from the device's `details` mapping, parameterised by
the static rename table `VS_TO_HA_ATTRIBUTES` (from `const.py`) and the
host's reserved state-attribute names (`self.state_attributes`).  For each
key: if it is in the rename table, emit the renamed key; otherwise, if it
collides with a reserved host attribute, emit a `vs_`-prefixed key;
otherwise, pass it through unchanged. -/
def VeSyncHumidifierHA.extra_state_attributes {α : Type}
    (VS_TO_HA_ATTRIBUTES : List (String × String))
    (state_attributes : List String)
    (details : List (String × α)) : List (String × α) :=
  details.foldl
    (fun attr kv =>
      match VS_TO_HA_ATTRIBUTES.lookup kv.1 with
      | some ha_key => pyInsert attr ha_key kv.2
      | none =>
        if kv.1 ∈ state_attributes then
          pyInsert attr ("vs_" ++ kv.1) kv.2
        else
          pyInsert attr kv.1 kv.2)
    []

/-- `humidifier.py` lines 181-190 (`set_humidity`): reject a humidity
outside `range(min_humidity, max_humidity + 1)` before any vendor call;
otherwise call the vendor's `set_humidity` and either schedule a state
refresh (success) or raise (failure). -/
def VeSyncHumidifierHA.set_humidity (dev : VendorHumidifier) (humidity : Int) : CmdResult :=
  if ¬ pyRangeContains MIN_HUMIDITY (MAX_HUMIDITY + 1) humidity then
    { raised := true, vendorCalled := false, refreshed := false }
  else if dev.set_humidity_ok humidity then
    { raised := false, vendorCalled := true, refreshed := true }
  else
    { raised := true, vendorCalled := true, refreshed := false }

/-- `humidifier.py` lines 192-201 (`set_mode`): reject a mode not in
`available_modes` before any vendor call; otherwise call the vendor's
`set_humidity_mode` with the translated mode and either schedule a state
refresh (success) or raise (failure). -/
def VeSyncHumidifierHA.set_mode (dev : VendorHumidifier) (mode : String) : CmdResult :=
  if mode ∉ VeSyncHumidifierHA.available_modes dev then
    { raised := true, vendorCalled := false, refreshed := false }
  else if dev.set_humidity_mode_ok (get_vs_mode mode).result then
    { raised := false, vendorCalled := true, refreshed := true }
  else
    { raised := true, vendorCalled := true, refreshed := false }

/-- `humidifier.py` lines 203-210 (`turn_on`): call the vendor's `turn_on`
and raise when it reports failure; no state refresh is scheduled. -/
def VeSyncHumidifierHA.turn_on (dev : VendorHumidifier) : CmdResult :=
  if dev.turn_on_ok then
    { raised := false, vendorCalled := true, refreshed := false }
  else
    { raised := true, vendorCalled := true, refreshed := false }

/-- `humidifier.py` lines 212-216 (`turn_off`): call the vendor's
`turn_off` and raise when it reports failure; no state refresh is
scheduled. -/
def VeSyncHumidifierHA.turn_off (dev : VendorHumidifier) : CmdResult :=
  if dev.turn_off_ok then
    { raised := false, vendorCalled := true, refreshed := false }
  else
    { raised := true, vendorCalled := true, refreshed := false }

/-- A vendor device object as `binary_sensor.py` reads it: whether it has
a `fryer_status` attribute (duck-typed via `hasattr`), its `details`
state mapping (boolean sensor values), and its identity. -/
structure BSDevice where
  has_fryer_status : Bool
  details : List (String × Bool)
  uuid : String
deriving Repr, DecidableEq

/-- An airfryer sensor kind (`stype`): attribute name, display name,
icon. -/
structure AirfryerSType where
  attr_name : String
  display_name : String
  icon : String
deriving Repr, DecidableEq

/-- Modelled from the spec: `BINARY_SENSOR_TYPES_AIRFRYER` lives in
`const.py`, which is not under `src/`; the spec describes it as the static
set of fryer-status sensor kinds, one adapter created per kind. -/
def BINARY_SENSOR_TYPES_AIRFRYER : List AirfryerSType :=
  [{ attr_name := "fryer_status", display_name := "fryer status",
     icon := "mdi:pot-steam" }]

/-- Modelled from the spec: `has_feature` lives in `common.py`, which is
not under `src/`; the spec says capability detection is duck-typed against
the live device object, checking whether the device's state mapping
exposes the given key. -/
def has_feature (details : List (String × Bool)) (attr_key : String) : Bool :=
  (details.lookup attr_key).isSome

/-- A binary-sensor adapter constructed during discovery, tagged by its
class and carrying the wrapped device (plus the sensor kind, for the
airfryer class). -/
inductive BSEntity where
  | airfryer (dev : BSDevice) (stype : AirfryerSType)
  | outOfWater (dev : BSDevice)
  | waterTankLifted (dev : BSDevice)
  | filterOpenState (dev : BSDevice)
deriving Repr, DecidableEq

/-- `binary_sensor.py` lines 48-63, body of the discovery loop for one
device: one airfryer adapter per kind when the device has a
`fryer_status` attribute, then one adapter per optional `details`
capability (`water_lacks`, `water_tank_lifted`, `filter_open_state`). -/
def deviceEntities (dev : BSDevice) : List BSEntity :=
  (if dev.has_fryer_status then
    BINARY_SENSOR_TYPES_AIRFRYER.map (fun stype => BSEntity.airfryer dev stype)
  else [])
  ++ (if has_feature dev.details "water_lacks" then [BSEntity.outOfWater dev] else [])
  ++ (if has_feature dev.details "water_tank_lifted" then [BSEntity.waterTankLifted dev] else [])
  ++ (if has_feature dev.details "filter_open_state" then [BSEntity.filterOpenState dev] else [])

/-- `binary_sensor.py` lines 44-65 (`_setup_entities`): accumulate the
adapters for every device of the discovery batch into one list. -/
def setup_entities (devices : List BSDevice) : List BSEntity :=
  devices.foldl (fun entities dev => entities ++ deviceEntities dev) []

/-- `binary_sensor.py` lines 131-134 (`VeSyncOutOfWaterSensor.is_on`):
read `details["water_lacks"]`; `none` models the `KeyError` Python would
raise on a missing key. -/
def VeSyncOutOfWaterSensor.is_on (dev : BSDevice) : Option Bool :=
  dev.details.lookup "water_lacks"

/-- Modelled from the spec: `VeSyncBaseEntity.unique_id` lives in
`common.py`, which is not under `src/`; the spec says an adapter's
identity is derived deterministically from the device's `uuid`. -/
def base_unique_id (dev : BSDevice) : String :=
  dev.uuid

/-- `binary_sensor.py` lines 82-85: the airfryer sensor's unique id is the
base id, a dash, and the sensor kind's attribute name (`stype[0]`). -/
def VeSyncairfryerSensor.unique_id (dev : BSDevice) (stype : AirfryerSType) : String :=
  base_unique_id dev ++ "-" ++ stype.attr_name

/-- `binary_sensor.py` lines 121-124: base id plus `-out_of_water`. -/
def VeSyncOutOfWaterSensor.unique_id (dev : BSDevice) : String :=
  base_unique_id dev ++ "-out_of_water"

/-- `binary_sensor.py` lines 140-143: base id plus `-water_tank_lifted`. -/
def VeSyncWaterTankLiftedSensor.unique_id (dev : BSDevice) : String :=
  base_unique_id dev ++ "-water_tank_lifted"

/-- `binary_sensor.py` lines 159-162: base id plus `-filter-open-state`. -/
def VeSyncFilterOpenStateSensor.unique_id (dev : BSDevice) : String :=
  base_unique_id dev ++ "-filter-open-state"

/-- A concrete humidifier device whose vendor command methods all report
success, exposing the single vendor mist mode `manual`. -/
def devAllOk : VendorHumidifier :=
  { mist_modes := some [VS_MODE_MANUAL]
    uuid := "dev-1"
    set_humidity_ok := fun _ => true
    set_humidity_mode_ok := fun _ => true
    turn_on_ok := true
    turn_off_ok := true }

/-- The spec's example device: `details = \x7b"water_lacks": True\x7d` and no
other optional capability. -/
def exampleDevice : BSDevice :=
  { has_fryer_status := false
    details := [("water_lacks", true)]
    uuid := "example" }

/-- A second construction context sharing `exampleDevice`'s identity but
differing in every other field. -/
def exampleDeviceAgain : BSDevice :=
  { has_fryer_status := true
    details := []
    uuid := "example" }

/-- The translating loop of `available_modes`, run from any accumulator,
appends exactly the known translations in order. -/
lemma foldl_translate_eq_filterMap (f : String → Option String) :
    ∀ (l acc : List String),
      l.foldl
        (fun modes vs =>
          match f vs with
          | none => modes
          | some ha => modes ++ [ha]) acc
      = acc ++ l.filterMap f := by
  intro l
  induction l with
  | nil => intro acc; simp
  | cons x xs ih =>
    intro acc
    cases hx : f x with
    | none => simp [List.foldl_cons, hx, ih, List.filterMap_cons]
    | some ha => simp [List.foldl_cons, hx, ih, List.filterMap_cons]

/-- `available_modes` in closed form: the known translations of the
device's mist modes, in order (empty when `mist_modes` is null). -/
lemma available_modes_eq (dev : VendorHumidifier) (ms : List String)
    (h : dev.mist_modes = some ms) :
    VeSyncHumidifierHA.available_modes dev
      = ms.filterMap (fun vs => (get_ha_mode vs).result) := by
  unfold VeSyncHumidifierHA.available_modes
  rw [h]
  simpa using foldl_translate_eq_filterMap (fun vs => (get_ha_mode vs).result) ms []

/-- Inversion for a successful lookup in the vendor-to-host mode table:
the key-value pair is one of the four entries. -/
lemma lookup_vs_to_ha_elim (vs m : String)
    (h : VS_TO_HA_MODE_MAP.lookup vs = some m) :
    (vs = VS_MODE_AUTO ∧ m = MODE_AUTO) ∨
    (vs = VS_MODE_HUMIDITY ∧ m = MODE_AUTO) ∨
    (vs = VS_MODE_MANUAL ∧ m = MODE_NORMAL) ∨
    (vs = VS_MODE_SLEEP ∧ m = MODE_SLEEP) := by
  by_cases h1 : vs = VS_MODE_AUTO
  · subst h1
    have e : VS_TO_HA_MODE_MAP.lookup VS_MODE_AUTO = some MODE_AUTO := by decide
    rw [e] at h
    exact Or.inl ⟨rfl, (Option.some.injEq _ _ ▸ h).symm⟩
  · by_cases h2 : vs = VS_MODE_HUMIDITY
    · subst h2
      have e : VS_TO_HA_MODE_MAP.lookup VS_MODE_HUMIDITY = some MODE_AUTO := by decide
      rw [e] at h
      exact Or.inr (Or.inl ⟨rfl, (Option.some.injEq _ _ ▸ h).symm⟩)
    · by_cases h3 : vs = VS_MODE_MANUAL
      · subst h3
        have e : VS_TO_HA_MODE_MAP.lookup VS_MODE_MANUAL = some MODE_NORMAL := by decide
        rw [e] at h
        exact Or.inr (Or.inr (Or.inl ⟨rfl, (Option.some.injEq _ _ ▸ h).symm⟩))
      · by_cases h4 : vs = VS_MODE_SLEEP
        · subst h4
          have e : VS_TO_HA_MODE_MAP.lookup VS_MODE_SLEEP = some MODE_SLEEP := by decide
          rw [e] at h
          exact Or.inr (Or.inr (Or.inr ⟨rfl, (Option.some.injEq _ _ ▸ h).symm⟩))
        · exfalso
          have e1 : (vs == VS_MODE_AUTO) = false := beq_eq_false_iff_ne.mpr h1
          have e2 : (vs == VS_MODE_HUMIDITY) = false := beq_eq_false_iff_ne.mpr h2
          have e3 : (vs == VS_MODE_MANUAL) = false := beq_eq_false_iff_ne.mpr h3
          have e4 : (vs == VS_MODE_SLEEP) = false := beq_eq_false_iff_ne.mpr h4
          simp [VS_TO_HA_MODE_MAP, List.lookup, e1, e2, e3, e4] at h

/-- C1 counterexample: `VS_MODE_AUTO` is a key of the vendor-to-host
table, its host translation is `MODE_AUTO`, yet translating `MODE_AUTO`
back yields `VS_MODE_HUMIDITY`, which differs from `VS_MODE_AUTO`: the
vendor-to-host-to-vendor round trip does not return the original string.
(Both `VS_MODE_AUTO` and `VS_MODE_HUMIDITY` map to `MODE_AUTO`, and the
reversing dict comprehension keeps the last pair.) -/
theorem vs_mode_auto_roundtrip_fails :
    (VS_TO_HA_MODE_MAP.lookup VS_MODE_AUTO).isSome = true ∧
    (get_ha_mode VS_MODE_AUTO).result = some MODE_AUTO ∧
    (get_vs_mode MODE_AUTO).result = some VS_MODE_HUMIDITY ∧
    VS_MODE_HUMIDITY ≠ VS_MODE_AUTO := by
  refine ⟨by decide, by decide, by decide, by decide⟩

/-- C1 amended: for every key of the vendor-to-host mode table the
round trip vendor-to-host-to-vendor is defined, and it returns the
original vendor mode for every key except `VS_MODE_AUTO`, for which it
returns `VS_MODE_HUMIDITY`. -/
theorem mode_roundtrip_characterization (vs : String)
    (h : (VS_TO_HA_MODE_MAP.lookup vs).isSome = true) :
    ((get_ha_mode vs).result.bind fun ha => (get_vs_mode ha).result)
      = some (if vs == VS_MODE_AUTO then VS_MODE_HUMIDITY else vs) := by
  obtain ⟨m, hm⟩ := Option.isSome_iff_exists.mp h
  rcases lookup_vs_to_ha_elim vs m hm with ⟨h1, _⟩ | ⟨h1, _⟩ | ⟨h1, _⟩ | ⟨h1, _⟩ <;>
    subst h1 <;> decide

/-- C1 witness: the round trip at the concrete key `VS_MODE_MANUAL`. -/
theorem mode_roundtrip_characterization_witness :
    (VS_TO_HA_MODE_MAP.lookup VS_MODE_MANUAL).isSome = true ∧
    ((get_ha_mode VS_MODE_MANUAL).result.bind fun ha => (get_vs_mode ha).result)
      = some (if VS_MODE_MANUAL == VS_MODE_AUTO then VS_MODE_HUMIDITY else VS_MODE_MANUAL) :=
  ⟨by decide, mode_roundtrip_characterization VS_MODE_MANUAL (by decide)⟩

/-- C2 counterexample: on `devAllOk` the vendor's `turn_on` reports
success and `turn_on` returns normally, yet no state refresh is
triggered (`turn_on` and `turn_off` never call
`schedule_update_ha_state`), contrary to the claim that every successful
command triggers a state refresh. -/
theorem turn_on_success_no_refresh :
    devAllOk.turn_on_ok = true ∧
    (VeSyncHumidifierHA.turn_on devAllOk).raised = false ∧
    (VeSyncHumidifierHA.turn_on devAllOk).refreshed = false :=
  ⟨rfl, rfl, rfl⟩

/-- C2 amended: for arguments passing local validation, `set_humidity`
and `set_mode` return normally and trigger a state refresh when the
vendor reports success, and raise (reporting no success and no refresh)
when it reports failure; `turn_on` and `turn_off` return normally
without a refresh on success and raise on failure. -/
theorem command_failure_semantics (dev : VendorHumidifier)
    (humidity : Int) (mode : String)
    (hh : pyRangeContains MIN_HUMIDITY (MAX_HUMIDITY + 1) humidity = true)
    (hm : mode ∈ VeSyncHumidifierHA.available_modes dev) :
    (VeSyncHumidifierHA.set_humidity dev humidity =
      if dev.set_humidity_ok humidity then
        { raised := false, vendorCalled := true, refreshed := true }
      else
        { raised := true, vendorCalled := true, refreshed := false })
    ∧ (VeSyncHumidifierHA.set_mode dev mode =
      if dev.set_humidity_mode_ok (get_vs_mode mode).result then
        { raised := false, vendorCalled := true, refreshed := true }
      else
        { raised := true, vendorCalled := true, refreshed := false })
    ∧ (VeSyncHumidifierHA.turn_on dev =
      if dev.turn_on_ok then
        { raised := false, vendorCalled := true, refreshed := false }
      else
        { raised := true, vendorCalled := true, refreshed := false })
    ∧ (VeSyncHumidifierHA.turn_off dev =
      if dev.turn_off_ok then
        { raised := false, vendorCalled := true, refreshed := false }
      else
        { raised := true, vendorCalled := true, refreshed := false }) := by
  refine ⟨?_, ?_, rfl, rfl⟩
  · simp [VeSyncHumidifierHA.set_humidity, hh]
  · simp [VeSyncHumidifierHA.set_mode, hm]

/-- C2 witness: the command semantics at the concrete device `devAllOk`
with humidity 50 and mode `MODE_NORMAL`. -/
theorem command_failure_semantics_witness :
    pyRangeContains MIN_HUMIDITY (MAX_HUMIDITY + 1) 50 = true ∧
    MODE_NORMAL ∈ VeSyncHumidifierHA.available_modes devAllOk ∧
    ((VeSyncHumidifierHA.set_humidity devAllOk 50 =
      if devAllOk.set_humidity_ok 50 then
        { raised := false, vendorCalled := true, refreshed := true }
      else
        { raised := true, vendorCalled := true, refreshed := false })
    ∧ (VeSyncHumidifierHA.set_mode devAllOk MODE_NORMAL =
      if devAllOk.set_humidity_mode_ok (get_vs_mode MODE_NORMAL).result then
        { raised := false, vendorCalled := true, refreshed := true }
      else
        { raised := true, vendorCalled := true, refreshed := false })
    ∧ (VeSyncHumidifierHA.turn_on devAllOk =
      if devAllOk.turn_on_ok then
        { raised := false, vendorCalled := true, refreshed := false }
      else
        { raised := true, vendorCalled := true, refreshed := false })
    ∧ (VeSyncHumidifierHA.turn_off devAllOk =
      if devAllOk.turn_off_ok then
        { raised := false, vendorCalled := true, refreshed := false }
      else
        { raised := true, vendorCalled := true, refreshed := false })) :=
  ⟨by decide, by decide,
    command_failure_semantics devAllOk 50 MODE_NORMAL (by decide) (by decide)⟩

/-- C3: a humidity outside the closed interval
`[MIN_HUMIDITY, MAX_HUMIDITY]` makes `set_humidity` raise a validation
error before any vendor call: no vendor method is invoked and no refresh
happens. -/
theorem set_humidity_out_of_range_rejected (dev : VendorHumidifier)
    (humidity : Int)
    (h : humidity < MIN_HUMIDITY ∨ MAX_HUMIDITY < humidity) :
    VeSyncHumidifierHA.set_humidity dev humidity =
      { raised := true, vendorCalled := false, refreshed := false } := by
  have hb : pyRangeContains MIN_HUMIDITY (MAX_HUMIDITY + 1) humidity = false := by
    simp only [pyRangeContains, MIN_HUMIDITY, MAX_HUMIDITY] at *
    rcases h with h | h <;> simp <;> omega
  simp [VeSyncHumidifierHA.set_humidity, hb]

/-- C3 witness: humidity 81 (above the maximum of 80) is rejected with no
vendor call, even on a device whose vendor methods always succeed. -/
theorem set_humidity_out_of_range_rejected_witness :
    MAX_HUMIDITY < (81 : Int) ∧
    VeSyncHumidifierHA.set_humidity devAllOk 81 =
      { raised := true, vendorCalled := false, refreshed := false } :=
  ⟨by decide, set_humidity_out_of_range_rejected devAllOk 81 (Or.inr (by decide))⟩

/-- C4: a mode not in `available_modes` makes `set_mode` raise a
validation error before any vendor call: no vendor method is invoked and
no refresh happens. -/
theorem set_mode_unavailable_rejected (dev : VendorHumidifier)
    (mode : String) (h : mode ∉ VeSyncHumidifierHA.available_modes dev) :
    VeSyncHumidifierHA.set_mode dev mode =
      { raised := true, vendorCalled := false, refreshed := false } := by
  simp [VeSyncHumidifierHA.set_mode, h]

/-- C4 witness: the mode string `"bogus"` is not available on `devAllOk`
and is rejected with no vendor call. -/
theorem set_mode_unavailable_rejected_witness :
    "bogus" ∉ VeSyncHumidifierHA.available_modes devAllOk ∧
    VeSyncHumidifierHA.set_mode devAllOk "bogus" =
      { raised := true, vendorCalled := false, refreshed := false } :=
  ⟨by decide, set_mode_unavailable_rejected devAllOk "bogus" (by decide)⟩

/-- C5: on a string that is not a key of the corresponding table, each
translation function returns `None` (no exception is modelled: the
functions are total) and logs a warning. -/
theorem unknown_mode_lookup_returns_none (s t : String)
    (h1 : VS_TO_HA_MODE_MAP.lookup s = none)
    (h2 : HA_TO_VS_MODE_MAP.lookup t = none) :
    get_ha_mode s = { result := none, warned := true } ∧
    get_vs_mode t = { result := none, warned := true } := by
  constructor
  · simp [get_ha_mode, h1]
  · simp [get_vs_mode, h2]

/-- C5 witness: the unknown string `"bogus"` is a key of neither table
and both translations return `None` with a warning. -/
theorem unknown_mode_lookup_returns_none_witness :
    VS_TO_HA_MODE_MAP.lookup "bogus" = none ∧
    HA_TO_VS_MODE_MAP.lookup "bogus" = none ∧
    get_ha_mode "bogus" = { result := none, warned := true } ∧
    get_vs_mode "bogus" = { result := none, warned := true } :=
  ⟨by decide, by decide,
    unknown_mode_lookup_returns_none "bogus" "bogus" (by decide) (by decide)⟩

/-- C7: for a device with a non-null `mist_modes`, `available_modes` is
exactly the translation of each vendor mode through the vendor-to-host
table in order, dropping every entry whose translation is unknown. -/
theorem available_modes_translates_mist_modes (dev : VendorHumidifier)
    (ms : List String) (h : dev.mist_modes = some ms) :
    VeSyncHumidifierHA.available_modes dev
      = ms.filterMap (fun vs => (get_ha_mode vs).result) :=
  available_modes_eq dev ms h

/-- C7 witness: a device advertising the vendor modes
`[sleep, bogus, auto]` gets the in-order translations `[sleep, auto]`,
the unknown entry dropped. -/
theorem available_modes_translates_mist_modes_witness :
    ({ devAllOk with mist_modes := some [VS_MODE_SLEEP, "bogus", VS_MODE_AUTO] }
        : VendorHumidifier).mist_modes = some [VS_MODE_SLEEP, "bogus", VS_MODE_AUTO] ∧
    VeSyncHumidifierHA.available_modes
        { devAllOk with mist_modes := some [VS_MODE_SLEEP, "bogus", VS_MODE_AUTO] }
      = [VS_MODE_SLEEP, "bogus", VS_MODE_AUTO].filterMap
          (fun vs => (get_ha_mode vs).result) :=
  ⟨rfl,
    available_modes_translates_mist_modes
      { devAllOk with mist_modes := some [VS_MODE_SLEEP, "bogus", VS_MODE_AUTO] }
      [VS_MODE_SLEEP, "bogus", VS_MODE_AUTO] rfl⟩

/-- C10: every host mode in `available_modes` translates back to a
vendor mode: `get_vs_mode` returns a non-null result without warning, so
`set_mode` never passes `None` to the vendor's `set_humidity_mode`. -/
theorem available_mode_vs_translation_some (dev : VendorHumidifier)
    (m : String) (h : m ∈ VeSyncHumidifierHA.available_modes dev) :
    (get_vs_mode m).result.isSome = true ∧ (get_vs_mode m).warned = false := by
  cases hms : dev.mist_modes with
  | none =>
    rw [VeSyncHumidifierHA.available_modes, hms] at h
    simp at h
  | some ms =>
    rw [available_modes_eq dev ms hms] at h
    obtain ⟨vs, -, hvs⟩ := List.mem_filterMap.mp h
    have hl : VS_TO_HA_MODE_MAP.lookup vs = some m := hvs
    rcases lookup_vs_to_ha_elim vs m hl with ⟨-, h2⟩ | ⟨-, h2⟩ | ⟨-, h2⟩ | ⟨-, h2⟩ <;>
      subst h2 <;> exact ⟨by decide, by decide⟩

/-- C10 witness: `MODE_NORMAL` is available on `devAllOk` and its
host-to-vendor translation is defined without warning. -/
theorem available_mode_vs_translation_some_witness :
    MODE_NORMAL ∈ VeSyncHumidifierHA.available_modes devAllOk ∧
    ((get_vs_mode MODE_NORMAL).result.isSome = true ∧
      (get_vs_mode MODE_NORMAL).warned = false) :=
  ⟨by decide, available_mode_vs_translation_some devAllOk MODE_NORMAL (by decide)⟩

/-- The spec's three ordered re-keying rules for one state key: a key in
the static rename table is renamed; otherwise a key colliding with a
reserved host state-attribute name is `vs_`-prefixed; otherwise it
passes through unchanged. -/
def specEmittedKey (tbl : List (String × String)) (reserved : List String)
    (k : String) : String :=
  match tbl.lookup k with
  | some ha_key => ha_key
  | none => if k ∈ reserved then "vs_" ++ k else k

/-- One step of the `extra_state_attributes` loop performs the dict
assignment at the key picked by the spec's ordered rules. -/
lemma extra_attr_foldl_eq {α : Type} (tbl : List (String × String))
    (reserved : List String) :
    ∀ (details acc : List (String × α)),
      details.foldl
        (fun attr kv =>
          match tbl.lookup kv.1 with
          | some ha_key => pyInsert attr ha_key kv.2
          | none =>
            if kv.1 ∈ reserved then
              pyInsert attr ("vs_" ++ kv.1) kv.2
            else
              pyInsert attr kv.1 kv.2)
        acc
      = details.foldl
          (fun attr kv => pyInsert attr (specEmittedKey tbl reserved kv.1) kv.2)
          acc := by
  intro details
  induction details with
  | nil => intro acc; rfl
  | cons kv rest ih =>
    intro acc
    simp only [List.foldl_cons]
    have hstep :
        (match tbl.lookup kv.1 with
          | some ha_key => pyInsert acc ha_key kv.2
          | none =>
            if kv.1 ∈ reserved then
              pyInsert acc ("vs_" ++ kv.1) kv.2
            else
              pyInsert acc kv.1 kv.2)
        = pyInsert acc (specEmittedKey tbl reserved kv.1) kv.2 := by
      simp only [specEmittedKey]
      cases tbl.lookup kv.1 with
      | none =>
        by_cases hk : kv.1 ∈ reserved
        · simp [hk]
        · simp [hk]
      | some ha_key => rfl
    rw [hstep]
    exact ih _

/-- C8: `extra_state_attributes` is the dict built by applying, to each
key-value pair of `details` in order, exactly one of the spec's three
ordered rules to the key, keeping the value. -/
theorem extra_state_attributes_three_rules {α : Type}
    (tbl : List (String × String)) (reserved : List String)
    (details : List (String × α)) :
    VeSyncHumidifierHA.extra_state_attributes tbl reserved details
      = pyDictOfPairs
          (details.map fun kv => (specEmittedKey tbl reserved kv.1, kv.2)) := by
  unfold VeSyncHumidifierHA.extra_state_attributes pyDictOfPairs
  rw [List.foldl_map]
  exact extra_attr_foldl_eq tbl reserved details []

/-- C9: the unique id of every binary-sensor class is a deterministic
function of the device's identity (uuid) and the fixed per-class suffix:
two constructions over devices with the same identity agree. -/
theorem unique_id_deterministic (d1 d2 : BSDevice) (h : d1.uuid = d2.uuid) :
    (∀ stype, VeSyncairfryerSensor.unique_id d1 stype
        = VeSyncairfryerSensor.unique_id d2 stype) ∧
    VeSyncOutOfWaterSensor.unique_id d1 = VeSyncOutOfWaterSensor.unique_id d2 ∧
    VeSyncWaterTankLiftedSensor.unique_id d1
      = VeSyncWaterTankLiftedSensor.unique_id d2 ∧
    VeSyncFilterOpenStateSensor.unique_id d1
      = VeSyncFilterOpenStateSensor.unique_id d2 := by
  refine ⟨fun stype => ?_, ?_, ?_, ?_⟩ <;>
    simp [VeSyncairfryerSensor.unique_id, VeSyncOutOfWaterSensor.unique_id,
      VeSyncWaterTankLiftedSensor.unique_id, VeSyncFilterOpenStateSensor.unique_id,
      base_unique_id, h]

/-- C9 witness: `exampleDevice` and `exampleDeviceAgain` share an
identity but nothing else, and every sensor class gives both the same
unique id. -/
theorem unique_id_deterministic_witness :
    exampleDevice.uuid = exampleDeviceAgain.uuid ∧
    ((∀ stype, VeSyncairfryerSensor.unique_id exampleDevice stype
        = VeSyncairfryerSensor.unique_id exampleDeviceAgain stype) ∧
    VeSyncOutOfWaterSensor.unique_id exampleDevice
      = VeSyncOutOfWaterSensor.unique_id exampleDeviceAgain ∧
    VeSyncWaterTankLiftedSensor.unique_id exampleDevice
      = VeSyncWaterTankLiftedSensor.unique_id exampleDeviceAgain ∧
    VeSyncFilterOpenStateSensor.unique_id exampleDevice
      = VeSyncFilterOpenStateSensor.unique_id exampleDeviceAgain) :=
  ⟨rfl, unique_id_deterministic exampleDevice exampleDeviceAgain rfl⟩

/-- `setup_entities` concatenates the per-device adapter lists. -/
lemma setup_entities_eq_flatMap (devices : List BSDevice) :
    setup_entities devices = devices.flatMap deviceEntities := by
  unfold setup_entities
  exact (List.flatMap_eq_foldl _ _).symm

/-- Membership in one device's adapter list: each adapter class appears
exactly when the corresponding capability test passes. -/
lemma mem_deviceEntities (dev : BSDevice) (e : BSEntity) :
    e ∈ deviceEntities dev ↔
      (dev.has_fryer_status = true ∧
        ∃ stype, stype ∈ BINARY_SENSOR_TYPES_AIRFRYER ∧ e = BSEntity.airfryer dev stype)
    ∨ (has_feature dev.details "water_lacks" = true ∧ e = BSEntity.outOfWater dev)
    ∨ (has_feature dev.details "water_tank_lifted" = true ∧
        e = BSEntity.waterTankLifted dev)
    ∨ (has_feature dev.details "filter_open_state" = true ∧
        e = BSEntity.filterOpenState dev) := by
  unfold deviceEntities
  by_cases h1 : dev.has_fryer_status = true <;>
    by_cases h2 : has_feature dev.details "water_lacks" = true <;>
      by_cases h3 : has_feature dev.details "water_tank_lifted" = true <;>
        by_cases h4 : has_feature dev.details "filter_open_state" = true <;>
          simp [h1, h2, h3, h4, List.mem_append, List.mem_map, eq_comm]

/-- C6: in a discovery batch, a device gets an adapter of a given kind
iff it exposes the matching optional capability (`fryer_status`
attribute, or the `details` keys `water_lacks`, `water_tank_lifted`,
`filter_open_state`); and the spec's example device, with
`details = \x7b"water_lacks": True\x7d` only, yields exactly the one
out-of-water adapter, whose `is_on` reads `True`. -/
theorem binary_sensor_discovery_iff_capability
    (devices : List BSDevice) (dev : BSDevice) (hdev : dev ∈ devices) :
    ((∃ stype, BSEntity.airfryer dev stype ∈ setup_entities devices) ↔
      dev.has_fryer_status = true)
    ∧ (BSEntity.outOfWater dev ∈ setup_entities devices ↔
      has_feature dev.details "water_lacks" = true)
    ∧ (BSEntity.waterTankLifted dev ∈ setup_entities devices ↔
      has_feature dev.details "water_tank_lifted" = true)
    ∧ (BSEntity.filterOpenState dev ∈ setup_entities devices ↔
      has_feature dev.details "filter_open_state" = true)
    ∧ setup_entities [exampleDevice] = [BSEntity.outOfWater exampleDevice]
    ∧ VeSyncOutOfWaterSensor.is_on exampleDevice = some true := by
  rw [setup_entities_eq_flatMap]
  refine ⟨?_, ?_, ?_, ?_, by decide, by decide⟩
  · constructor
    · rintro ⟨stype, hmem⟩
      obtain ⟨d, -, hd⟩ := List.mem_flatMap.mp hmem
      rcases (mem_deviceEntities d _).mp hd with
        ⟨hf, s, -, he⟩ | ⟨-, he⟩ | ⟨-, he⟩ | ⟨-, he⟩ <;> simp_all
    · intro hf
      refine ⟨⟨"fryer_status", "fryer status", "mdi:pot-steam"⟩,
        List.mem_flatMap.mpr ⟨dev, hdev, ?_⟩⟩
      exact (mem_deviceEntities dev _).mpr
        (Or.inl ⟨hf, _, by decide, rfl⟩)
  · constructor
    · intro hmem
      obtain ⟨d, -, hd⟩ := List.mem_flatMap.mp hmem
      rcases (mem_deviceEntities d _).mp hd with
        ⟨hf, s, -, he⟩ | ⟨hw, he⟩ | ⟨-, he⟩ | ⟨-, he⟩ <;> simp_all
    · intro hw
      exact List.mem_flatMap.mpr ⟨dev, hdev,
        (mem_deviceEntities dev _).mpr (Or.inr (Or.inl ⟨hw, rfl⟩))⟩
  · constructor
    · intro hmem
      obtain ⟨d, -, hd⟩ := List.mem_flatMap.mp hmem
      rcases (mem_deviceEntities d _).mp hd with
        ⟨hf, s, -, he⟩ | ⟨-, he⟩ | ⟨hw, he⟩ | ⟨-, he⟩ <;> simp_all
    · intro hw
      exact List.mem_flatMap.mpr ⟨dev, hdev,
        (mem_deviceEntities dev _).mpr (Or.inr (Or.inr (Or.inl ⟨hw, rfl⟩)))⟩
  · constructor
    · intro hmem
      obtain ⟨d, -, hd⟩ := List.mem_flatMap.mp hmem
      rcases (mem_deviceEntities d _).mp hd with
        ⟨hf, s, -, he⟩ | ⟨-, he⟩ | ⟨-, he⟩ | ⟨hw, he⟩ <;> simp_all
    · intro hw
      exact List.mem_flatMap.mpr ⟨dev, hdev,
        (mem_deviceEntities dev _).mpr (Or.inr (Or.inr (Or.inr ⟨hw, rfl⟩)))⟩

/-- C6 witness: the discovery characterisation at the batch containing
only the spec's example device. -/
theorem binary_sensor_discovery_iff_capability_witness :
    exampleDevice ∈ [exampleDevice] ∧
    (((∃ stype, BSEntity.airfryer exampleDevice stype ∈ setup_entities [exampleDevice]) ↔
      exampleDevice.has_fryer_status = true)
    ∧ (BSEntity.outOfWater exampleDevice ∈ setup_entities [exampleDevice] ↔
      has_feature exampleDevice.details "water_lacks" = true)
    ∧ (BSEntity.waterTankLifted exampleDevice ∈ setup_entities [exampleDevice] ↔
      has_feature exampleDevice.details "water_tank_lifted" = true)
    ∧ (BSEntity.filterOpenState exampleDevice ∈ setup_entities [exampleDevice] ↔
      has_feature exampleDevice.details "filter_open_state" = true)
    ∧ setup_entities [exampleDevice] = [BSEntity.outOfWater exampleDevice]
    ∧ VeSyncOutOfWaterSensor.is_on exampleDevice = some true) :=
  ⟨by decide,
    binary_sensor_discovery_iff_capability [exampleDevice] exampleDevice (by decide)⟩
